import Mathlib

/- Verification development for the postgresql_manager repository.
   The definitions below are a shallow embedding of the code in
   src/middleware/auth.js and src/routes/database.js: JavaScript Map
   objects become association lists, Date.now() timestamps become
   explicit Nat arguments, and each route handler becomes a pure
   function of its inputs together with the data the database would
   return on that request. -/

namespace PgManager

/-! ## Association-list model of a JavaScript Map with string keys -/

/-- Model of `Map.prototype.get`: first binding of the key, if any. -/
def mapGet {α : Type} : List (String × α) → String → Option α
  | [], _ => none
  | (k, v) :: rest, key => if k = key then some v else mapGet rest key

/-- Model of `Map.prototype.set`: replace the binding if the key is
present, otherwise append a new binding. -/
def mapSet {α : Type} : List (String × α) → String → α → List (String × α)
  | [], key, v => [(key, v)]
  | (k, w) :: rest, key, v =>
      if k = key then (key, v) :: rest else (k, w) :: mapSet rest key v

/-- Model of `Map.prototype.delete`: drop every binding of the key. -/
def mapDel {α : Type} : List (String × α) → String → List (String × α)
  | [], _ => []
  | (k, w) :: rest, key =>
      if k = key then mapDel rest key else (k, w) :: mapDel rest key

theorem mapGet_set_self {α : Type} (m : List (String × α)) (k : String) (v : α) :
    mapGet (mapSet m k v) k = some v := by
  induction m with
  | nil => simp [mapGet, mapSet]
  | cons hd tl ih =>
      obtain ⟨hk, hv⟩ := hd
      by_cases h : hk = k
      · simp [mapGet, mapSet, h]
      · simp [mapGet, mapSet, h, ih]

theorem mapGet_del_self {α : Type} (m : List (String × α)) (k : String) :
    mapGet (mapDel m k) k = none := by
  induction m with
  | nil => simp [mapGet, mapDel]
  | cons hd tl ih =>
      obtain ⟨hk, hv⟩ := hd
      by_cases h : hk = k
      · simp [mapDel, h, ih]
      · simp [mapGet, mapDel, h, ih]

/-! ## Session registry (src/middleware/auth.js lines 32-83)

A session record mirrors the object literal built in `createSession`;
`validateSession` is the lookup-validate-refresh operation, returning
both its result and the updated registry (the JavaScript code mutates
the shared `sessions` Map in place). -/

structure Session where
  userId : String
  createdAt : Nat
  lastActivity : Nat
  isValid : Bool
deriving DecidableEq, Repr

abbrev SessionMap := List (String × Session)

/-- Model of `validateSession` (auth.js lines 52-68): absent when the
token is unknown or the record is marked invalid; when the idle time
`now - lastActivity` strictly exceeds the timeout the entry is
deleted and absent is returned; otherwise `lastActivity` is refreshed
to `now` and the session is returned. -/
def validateSession (timeout now : Nat) (reg : SessionMap) (sid : String) :
    Option Session × SessionMap :=
  match mapGet reg sid with
  | none => (none, reg)
  | some s =>
      if !s.isValid then (none, reg)
      else if timeout < now - s.lastActivity then (none, mapDel reg sid)
      else
        let s' : Session := { s with lastActivity := now }
        (some s', mapSet reg sid s')

/-! ## Login credential comparison (src/middleware/auth.js line 280)

The login POST handler validates the password with the JavaScript
strict-equality operator, `password === AUTH_CONFIG.password`.  At the
byte level a strict string comparison scans left to right and stops at
the first mismatching byte.  `jsStrEqScan` returns both the verdict
and the number of byte comparisons performed, which is the observable
trace relevant to timing.  The module also defines a constant-time
helper `verifyPassword` (auth.js lines 27-30, `crypto.timingSafeEqual`),
but the login route never calls it. -/

/-- Byte-level model of `===` on strings: verdict together with the
number of byte comparisons performed before the scan stops. -/
def jsStrEqScan : List Nat → List Nat → Bool × Nat
  | [], [] => (true, 0)
  | [], _ :: _ => (false, 0)
  | _ :: _, [] => (false, 0)
  | a :: as, b :: bs =>
      if a = b then
        let r := jsStrEqScan as bs
        (r.1, r.2 + 1)
      else (false, 1)

/-- Length of the longest common prefix of two byte strings. -/
def commonPrefixLen : List Nat → List Nat → Nat
  | a :: as, b :: bs => if a = b then commonPrefixLen as bs + 1 else 0
  | _, _ => 0

/-! ## Login throttle (src/middleware/auth.js lines 262-309)

The handler keeps a Map from client address to an object
`{count, lastAttempt}`.  `loginAttemptStep` is one POST /login request:
it reads the entry (defaulting to count 0), zeroes the count when the
stored timestamp is more than fifteen minutes old, rejects when the
effective count has reached five, otherwise either clears the entry on
a correct credential pair or records a failure with the current time. -/

structure AttemptRec where
  count : Nat
  lastAttempt : Nat
deriving DecidableEq, Repr

abbrev ThrottleMap := List (String × AttemptRec)

inductive LoginOutcome where
  | blocked
  | success
  | failure
deriving DecidableEq, Repr

/-- Window length used at auth.js line 271: fifteen minutes in ms. -/
def loginWindowMs : Nat := 15 * 60 * 1000

/-- Maximum failed attempts tolerated, from auth.js line 275. -/
def loginMaxAttempts : Nat := 5

/-- Model of one execution of the POST /login handler body
(auth.js lines 262-309), restricted to its throttle state.  `credsOk`
stands for the credential comparison at line 280. -/
def loginAttemptStep (now : Nat) (m : ThrottleMap) (ip : String)
    (credsOk : Bool) : LoginOutcome × ThrottleMap :=
  let a0 := (mapGet m ip).getD ⟨0, 0⟩
  let a1 := if loginWindowMs < now - a0.lastAttempt then { a0 with count := 0 } else a0
  if loginMaxAttempts ≤ a1.count then (LoginOutcome.blocked, m)
  else if credsOk then (LoginOutcome.success, mapDel m ip)
  else (LoginOutcome.failure, mapSet m ip ⟨a1.count + 1, now⟩)

/-- Modelled from the spec (section 4.3): `isBlocked(clientKey)` is
true iff the fail count is at least the configured maximum and the
window has not expired.  Used to compare the handler against the
specified predicate. -/
def isBlockedSpec (now : Nat) (m : ThrottleMap) (ip : String) : Bool :=
  let a0 := (mapGet m ip).getD ⟨0, 0⟩
  decide (loginMaxAttempts ≤ a0.count) && decide (now - a0.lastAttempt ≤ loginWindowMs)

/-! ## Identifier validation (src/routes/database.js)

Every data route begins with the same prologue, for example lines
207-209:
`if (!tableName || !/^[a-zA-Z_][a-zA-Z0-9_]*$/.test(tableName))
   return res.status(400).json(...)`, and only after this guard does
the handler construct a client and touch the database.  The same
guard appears in the schema (156), list (207), view (285), insert
(369), update (406), delete (462) and export (514) handlers. -/

/-- Character class `[a-zA-Z_]` of the source regex. -/
def identStartChar (c : Char) : Bool :=
  (97 ≤ c.toNat && c.toNat ≤ 122) || (65 ≤ c.toNat && c.toNat ≤ 90) || c = '_'

/-- Character class `[a-zA-Z0-9_]` of the source regex. -/
def identChar (c : Char) : Bool :=
  identStartChar c || (48 ≤ c.toNat && c.toNat ≤ 57)

/-- Model of `/^[a-zA-Z_][a-zA-Z0-9_]*$/.test(s)`: the whole string is
one leading identifier character followed by identifier characters. -/
def isValidIdent (s : String) : Bool :=
  match s.data with
  | [] => false
  | c :: cs => identStartChar c && cs.all identChar

/-- Modelled from the spec (section 4.5): membership of a character in
the class `[A-Za-z_]`, written out as a predicate. -/
def identStartCharSpec (c : Char) : Prop :=
  ('A' ≤ c ∧ c ≤ 'Z') ∨ ('a' ≤ c ∧ c ≤ 'z') ∨ c = '_'

instance (c : Char) : Decidable (identStartCharSpec c) := by
  unfold identStartCharSpec
  exact inferInstance

/-- Modelled from the spec (section 4.5): membership of a character in
the class `[A-Za-z0-9_]`. -/
def identCharSpec (c : Char) : Prop :=
  identStartCharSpec c ∨ ('0' ≤ c ∧ c ≤ '9')

instance (c : Char) : Decidable (identCharSpec c) := by
  unfold identCharSpec
  exact inferInstance

/-- Modelled from the spec (section 4.5): the regex
`^[A-Za-z_][A-Za-z0-9_]*$` matches a character list iff it is nonempty,
its head lies in the start class, and every further character lies in
the continuation class. -/
def identRegexMatch : List Char → Prop
  | [] => False
  | c :: cs => identStartCharSpec c ∧ ∀ x ∈ cs, identCharSpec x

instance : (l : List Char) → Decidable (identRegexMatch l)
  | [] => isFalse fun h => h
  | _ :: _ => by
      unfold identRegexMatch
      exact inferInstance

/-- Observable actions of a route handler that matter to the claims. -/
inductive RouteEvent where
  | dbConnect
  | respond (status : Nat)
deriving DecidableEq, Repr

/-- Model of the guard condition
`!tableName || !/^[a-zA-Z_][a-zA-Z0-9_]*$/.test(tableName)`. -/
def tableNameRejected (s : String) : Bool :=
  s = "" || !(isValidIdent s)

/-- Shared prologue of the seven data routes: when the table name is
rejected the handler responds 400 at once; otherwise the rest of the
handler body (which begins by connecting to the database) runs. -/
def guardedDataRoute (s : String) (rest : List RouteEvent) : List RouteEvent :=
  if tableNameRejected s then [RouteEvent.respond 400] else rest

/-! ## Row values and CSV export (src/routes/database.js lines 510-555)

A cell of a result row is a JavaScript value; the export handler
serializes it at lines 531-535:
null and undefined yield an empty string and return before any
quoting; object-typed values (arrays and plain objects) go through
`JSON.stringify`; everything else through `String(value)`; the
non-null results then get every `"` doubled and are wrapped in
quotes. -/

inductive JValue where
  | jnull
  | jundef
  | jbool (b : Bool)
  | jnum (n : Int)
  | jstr (s : String)
  | jarr (xs : List JValue)
  | jobj (fields : List (String × JValue))

/-- Escaping performed by `JSON.stringify` on string contents,
restricted to the backslash and quote escapes (control-character
escapes are not exercised by any claim). -/
def jsonEscapeChar (c : Char) : String :=
  if c = '"' then "\\\""
  else if c = '\\' then "\\\\"
  else String.singleton c

def jsonEscape (s : String) : String :=
  String.join (s.data.map jsonEscapeChar)

mutual

/-- Model of `JSON.stringify` on row values.  Undefined is rendered as
null inside arrays and its key is dropped inside objects, matching the
builtin. -/
def jsonStringify : JValue → String
  | JValue.jnull => "null"
  | JValue.jundef => "null"
  | JValue.jbool true => "true"
  | JValue.jbool false => "false"
  | JValue.jnum n => toString n
  | JValue.jstr s => "\"" ++ jsonEscape s ++ "\""
  | JValue.jarr xs => "[" ++ jsonStringifyList xs ++ "]"
  | JValue.jobj fs => "\x7b" ++ jsonStringifyFields fs ++ "\x7d"

def jsonStringifyList : List JValue → String
  | [] => ""
  | [x] => jsonStringify x
  | x :: y :: xs => jsonStringify x ++ "," ++ jsonStringifyList (y :: xs)

def jsonStringifyFields : List (String × JValue) → String
  | [] => ""
  | [(k, v)] =>
      match v with
      | JValue.jundef => ""
      | w => "\"" ++ jsonEscape k ++ "\":" ++ jsonStringify w
  | (k, v) :: f :: fs =>
      match v with
      | JValue.jundef => jsonStringifyFields (f :: fs)
      | w => "\"" ++ jsonEscape k ++ "\":" ++ jsonStringify w ++ ","
               ++ jsonStringifyFields (f :: fs)

end

/-- Model of `String(value)` for the primitive values reaching it. -/
def jsToString : JValue → String
  | JValue.jbool true => "true"
  | JValue.jbool false => "false"
  | JValue.jnum n => toString n
  | JValue.jstr s => s
  | JValue.jnull => "null"
  | JValue.jundef => "undefined"
  | JValue.jarr xs => jsonStringify (JValue.jarr xs)
  | JValue.jobj fs => jsonStringify (JValue.jobj fs)

/-- Model of `stringValue.replace(/"/g, '""')` over the character
list. -/
def dqList : List Char → List Char
  | [] => []
  | c :: cs => if c = '"' then '"' :: '"' :: dqList cs else c :: dqList cs

def doubleQuotes (s : String) : String :=
  String.mk (dqList s.data)

/-- Final wrapping `'"' + stringValue.replace(/"/g, '""') + '"'`. -/
def quoteWrap (s : String) : String :=
  "\"" ++ doubleQuotes s ++ "\""

/-- Model of the per-value branch at database.js lines 531-535. -/
def csvField : JValue → String
  | JValue.jnull => ""
  | JValue.jundef => ""
  | JValue.jarr xs => quoteWrap (jsonStringify (JValue.jarr xs))
  | JValue.jobj fs => quoteWrap (jsonStringify (JValue.jobj fs))
  | JValue.jstr s => quoteWrap s
  | JValue.jnum n => quoteWrap (toString n)
  | JValue.jbool b => quoteWrap (if b then "true" else "false")

/-- A result row: column names with their values, in result order. -/
abbrev Row := List (String × JValue)

/-- Model of the CSV assembly at database.js lines 523-538: empty
string when there are no rows; otherwise the keys of the first row
joined by commas, a newline, then one line per row of serialized
values joined by commas. -/
def csvExport (rows : List Row) : String :=
  match rows with
  | [] => ""
  | r :: _ =>
      (String.intercalate "," (r.map Prod.fst) ++ "\n") ++
      String.join (rows.map fun row =>
        String.intercalate "," (row.map fun kv => csvField kv.2) ++ "\n")

/-! ## Pagination (src/routes/database.js lines 203-272) -/

/-- Value of a nonempty leading run of decimal digits; none when the
list does not start with a digit. -/
def digitsVal (l : List Char) : Option Nat :=
  let ds := l.takeWhile Char.isDigit
  if ds = [] then none
  else some (ds.foldl (fun a c => a * 10 + (c.toNat - 48)) 0)

/-- Model of `parseInt` on the strings the route receives: an optional
sign followed by a longest digit prefix; none models NaN. -/
def jsParseInt (s : String) : Option Int :=
  match s.data with
  | '-' :: rest => (digitsVal rest).map fun n => -(n : Int)
  | '+' :: rest => (digitsVal rest).map fun n => (n : Int)
  | l => (digitsVal l).map fun n => (n : Int)

/-- Destructuring default `page = 1` followed by `parseInt(page)`. -/
def pageParsed (q : Option String) : Option Int :=
  match q with
  | none => some 1
  | some s => jsParseInt s

/-- Destructuring default `limit = 100` followed by `parseInt(limit)`. -/
def limitParsed (q : Option String) : Option Int :=
  match q with
  | none => some 100
  | some s => jsParseInt s

/-- Model of `const offset = (parseInt(page) - 1) * parseInt(limit)`
(database.js line 254); none models a NaN offset. -/
def offsetOfQuery (pageQ limitQ : Option String) : Option Int := do
  let p ← pageParsed pageQ
  let l ← limitParsed limitQ
  pure ((p - 1) * l)

/-- Model of `Math.ceil(totalRows / limit)` (database.js line 271) for
a positive integer limit: real division followed by ceiling, computed
on naturals. -/
def totalPagesCalc (totalRows limit : Nat) : Nat :=
  (totalRows + limit - 1) / limit

/-! ## Update and delete handlers (src/routes/database.js 402-506)

Both handlers run the identifier guard, then a catalog query for the
primary-key column.  An empty catalog result yields a 400 response
before the UPDATE or DELETE statement is ever built or executed; an
executed statement returning zero rows yields 404; otherwise 200.
`matched` stands for the rows the statement would return, and the
boolean records whether the mutating statement was executed. -/

inductive CrudOutcome where
  | invalidName
  | noPrimaryKey
  | notFound
  | ok
deriving DecidableEq, Repr

/-- HTTP status attached to each outcome by the handlers. -/
def crudStatus : CrudOutcome → Nat
  | CrudOutcome.invalidName => 400
  | CrudOutcome.noPrimaryKey => 400
  | CrudOutcome.notFound => 404
  | CrudOutcome.ok => 200

/-- Model of the PUT /data/:tableName/:id handler (lines 402-455). -/
def updateRoute (tableName : String) (pkCols : List String)
    (matched : List Row) : CrudOutcome × Bool :=
  if tableNameRejected tableName then (CrudOutcome.invalidName, false)
  else
    match pkCols with
    | [] => (CrudOutcome.noPrimaryKey, false)
    | _ :: _ =>
        match matched with
        | [] => (CrudOutcome.notFound, true)
        | _ :: _ => (CrudOutcome.ok, true)

/-- Model of the DELETE /data/:tableName/:id handler (lines 459-506);
its control structure is identical to the update handler. -/
def deleteRoute (tableName : String) (pkCols : List String)
    (matched : List Row) : CrudOutcome × Bool :=
  if tableNameRejected tableName then (CrudOutcome.invalidName, false)
  else
    match pkCols with
    | [] => (CrudOutcome.noPrimaryKey, false)
    | _ :: _ =>
        match matched with
        | [] => (CrudOutcome.notFound, true)
        | _ :: _ => (CrudOutcome.ok, true)

/-! ## Ad-hoc query endpoint (src/routes/database.js lines 559-625) -/

/-- Tests whether `pat` occurs at the start of `hay`. -/
def startsWithList (hay pat : List Char) : Bool :=
  match pat, hay with
  | [], _ => true
  | _ :: _, [] => false
  | p :: ps, h :: hs => p = h && startsWithList hs ps

/-- Tests whether `pat` occurs anywhere inside `hay`. -/
def containsPattern (hay pat : List Char) : Bool :=
  match hay with
  | [] => startsWithList [] pat
  | _ :: hs => startsWithList hay pat || containsPattern hs pat

/-- Model of `String.prototype.toLowerCase` on one character: ASCII
uppercase letters move down by 32, everything else is unchanged. -/
def jsToLowerChar (c : Char) : Char :=
  if 65 ≤ c.toNat && c.toNat ≤ 90 then Char.ofNat (c.toNat + 32) else c

/-- Whitespace characters removed by `String.prototype.trim`. -/
def isWsChar (c : Char) : Bool :=
  c = ' ' || c = '\t' || c = '\n' || c = '\r'

/-- Model of `String.prototype.trim`: strip whitespace at both ends. -/
def trimList (l : List Char) : List Char :=
  ((l.dropWhile isWsChar).reverse.dropWhile isWsChar).reverse

/-- Model of `query.trim().toLowerCase()` at database.js line 567. -/
def normalizeQuery (q : String) : List Char :=
  (trimList q.data).map jsToLowerChar

def warnDestructive : String :=
  "⚠️ Destructive operation detected - proceed with caution"

def warnDeleteNoWhere : String :=
  "⚠️ DELETE without WHERE clause - this will delete all rows"

def warnUpdateNoWhere : String :=
  "⚠️ UPDATE without WHERE clause - this will update all rows"

/-- Model of the warning pre-scan at database.js lines 567-580: the
query text is trimmed and lowercased, then checked for the three
destructive patterns; each match appends one advisory string. -/
def computeWarnings (q : String) : List String :=
  let t := normalizeQuery q
  (if containsPattern t "drop table".data || containsPattern t "drop database".data
   then [warnDestructive] else [])
  ++ (if containsPattern t "delete from".data && !(containsPattern t "where".data)
      then [warnDeleteNoWhere] else [])
  ++ (if containsPattern t "update".data && !(containsPattern t "where".data)
      then [warnUpdateNoWhere] else [])

/-- Outcome of handing the text to the database driver. -/
inductive DbExec where
  | success
  | failure
deriving DecidableEq, Repr

structure RunQueryResponse where
  status : Nat
  warnings : List String
  executed : Bool
deriving DecidableEq, Repr

/-- Model of the POST /run-query handler (database.js lines 559-625):
a missing or empty body query is rejected 400 before any database
work; otherwise the warnings are computed, the query is always handed
to the driver, and both the 200 success payload and the 500 failure
payload carry the warnings. -/
def runQueryRoute (q : Option String) (db : DbExec) : RunQueryResponse :=
  match q with
  | none => ⟨400, [], false⟩
  | some qs =>
      if qs = "" then ⟨400, [], false⟩
      else
        let ws := computeWarnings qs
        match db with
        | DbExec.success => ⟨200, ws, true⟩
        | DbExec.failure => ⟨500, ws, true⟩

/-! ## Shared error handler (src/routes/database.js lines 44-67) -/

structure DbError where
  code : String
  message : String
deriving DecidableEq, Repr

structure ErrResponse where
  status : Nat
  error : String
  details : Option String
  code : String
deriving DecidableEq, Repr

/-- The fixed code-to-message table at database.js lines 47-58. -/
def errorCodeMessages : List (String × String) :=
  [("42P01", "Table not found"),
   ("42703", "Column not found"),
   ("23505", "Duplicate key violation"),
   ("23502", "Not null violation"),
   ("23503", "Foreign key violation"),
   ("42601", "Syntax error in SQL"),
   ("42P07", "Table already exists"),
   ("ECONNREFUSED", "Database connection refused"),
   ("ENOTFOUND", "Database host not found"),
   ("28P01", "Authentication failed")]

/-- Model of `handleDatabaseError` (database.js lines 44-67): always
status 500; the mapped friendly message or the generic fallback; the
driver message as `details` only in development mode (a JSON field set
to undefined is omitted, modelled as none); the raw driver code is
always echoed. -/
def handleDatabaseError (devMode : Bool) (e : DbError) : ErrResponse :=
  { status := 500
    error := (mapGet errorCodeMessages e.code).getD "Database operation failed"
    details := if devMode then some e.message else none
    code := e.code }

/-! ## Supporting lemmas -/

theorem identStartChar_iff (c : Char) :
    identStartChar c = true ↔ identStartCharSpec c := by
  have hA : 'A'.toNat = 65 := rfl
  have hZ : 'Z'.toNat = 90 := rfl
  have ha : 'a'.toNat = 97 := rfl
  have hz : 'z'.toNat = 122 := rfl
  have hle : ∀ a b : Char, (a ≤ b) = (a.toNat ≤ b.toNat) :=
    fun a b => propext Iff.rfl
  unfold identStartChar identStartCharSpec
  simp only [hle, hA, hZ, ha, hz, Bool.or_eq_true, Bool.and_eq_true,
    decide_eq_true_eq]
  tauto

theorem identChar_iff (c : Char) : identChar c = true ↔ identCharSpec c := by
  have h0 : '0'.toNat = 48 := rfl
  have h9 : '9'.toNat = 57 := rfl
  have hle : ∀ a b : Char, (a ≤ b) = (a.toNat ≤ b.toNat) :=
    fun a b => propext Iff.rfl
  unfold identChar identCharSpec
  simp only [hle, h0, h9, Bool.or_eq_true, Bool.and_eq_true,
    decide_eq_true_eq, identStartChar_iff]

theorem isValidIdent_iff (s : String) :
    isValidIdent s = true ↔ identRegexMatch s.data := by
  cases hd : s.data with
  | nil => simp [isValidIdent, hd, identRegexMatch]
  | cons c cs =>
      simp [isValidIdent, hd, identRegexMatch, List.all_eq_true,
        Bool.and_eq_true, identStartChar_iff, identChar_iff]

theorem loginStep_fail_fresh (now : Nat) (m : ThrottleMap) (ip : String)
    (h : mapGet m ip = none) :
    loginAttemptStep now m ip false = (LoginOutcome.failure, mapSet m ip ⟨1, now⟩) := by
  simp [loginAttemptStep, h, loginMaxAttempts, ite_self]

theorem loginStep_fail_step (now t k : Nat) (m : ThrottleMap) (ip : String)
    (h : mapGet m ip = some ⟨k, t⟩) (hk : k < 5) (hw : now - t ≤ loginWindowMs) :
    loginAttemptStep now m ip false = (LoginOutcome.failure, mapSet m ip ⟨k + 1, now⟩) := by
  simp [loginAttemptStep, h, Nat.not_lt.mpr hw, loginMaxAttempts, Nat.not_le.mpr hk]

theorem dqList_count (l : List Char) :
    (dqList l).count '"' = 2 * l.count '"' := by
  induction l with
  | nil => simp [dqList]
  | cons c cs ih =>
      by_cases h : c = '"'
      · simp [dqList, h, ih, List.count_cons]
        omega
      · simp [dqList, h, ih, List.count_cons]

/-! ## Claim theorems -/

/-- C1 counterexample: the claim states that for any two submitted
passwords of equal length the login comparison performs the same
sequence of byte comparisons.  Against the stored bytes [97, 98] the
submission [99, 98] is rejected after one byte comparison while the
equal-length submission [97, 99], which agrees on the leading byte, is
rejected only after two, so the trace does depend on leading
agreement. -/
theorem C1_counterexample :
    ([99, 98] : List Nat).length = ([97, 99] : List Nat).length ∧
    (jsStrEqScan [99, 98] [97, 98]).2 ≠ (jsStrEqScan [97, 99] [97, 98]).2 := by
  decide

/-- C1 amended: the login route compares the submitted password with
plain short-circuiting string equality (auth.js line 280), not with
the unused constant-time helper: the comparison verdict is ordinary
equality and the number of byte comparisons performed equals
min(commonPrefix + 1, min of the lengths), hence grows with the length
of the agreeing prefix. -/
theorem C1_login_comparison_short_circuits (p s : List Nat) :
    (jsStrEqScan p s).1 = decide (p = s) ∧
    (jsStrEqScan p s).2 = min (commonPrefixLen p s + 1) (min p.length s.length) := by
  induction p generalizing s with
  | nil => cases s <;> simp [jsStrEqScan, commonPrefixLen]
  | cons a as ih =>
      cases s with
      | nil => simp [jsStrEqScan, commonPrefixLen]
      | cons b bs =>
          by_cases h : a = b
          · subst h
            obtain ⟨ih1, ih2⟩ := ih bs
            refine ⟨?_, ?_⟩
            · simp [jsStrEqScan, ih1]
            · simp [jsStrEqScan, commonPrefixLen, ih2]
              omega
          · refine ⟨?_, ?_⟩
            · simp [jsStrEqScan, commonPrefixLen, h]
            · simp [jsStrEqScan, commonPrefixLen, h]

/-- C2: the guard shared by the seven data routes accepts a table name
iff it matches the regex `[A-Za-z_][A-Za-z0-9_]*` anchored at both
ends, and on a mismatch the route answers 400 immediately, so the
database-connection step of the handler body is never reached. -/
theorem C2_identifier_gate (s : String) (rest : List RouteEvent) :
    (isValidIdent s = true ↔ identRegexMatch s.data) ∧
    (¬ identRegexMatch s.data →
      guardedDataRoute s rest = [RouteEvent.respond 400] ∧
      RouteEvent.dbConnect ∉ guardedDataRoute s rest) := by
  refine ⟨isValidIdent_iff s, fun h => ?_⟩
  have hv : isValidIdent s = false := by
    rcases hb : isValidIdent s with _ | _
    · rfl
    · exact absurd ((isValidIdent_iff s).mp hb) h
  have hrej : tableNameRejected s = true := by
    simp [tableNameRejected, hv]
  refine ⟨?_, ?_⟩
  · simp [guardedDataRoute, hrej]
  · simp [guardedDataRoute, hrej]

/-- C2 witness: the injection-shaped name is rejected with a 400
response and the handler body is never entered. -/
theorem C2_witness :
    guardedDataRoute "users; drop table x" [RouteEvent.dbConnect] =
      [RouteEvent.respond 400] :=
  ((C2_identifier_gate "users; drop table x" [RouteEvent.dbConnect]).2 (by decide)).1

/-- C3: session validation returns absent for an unknown token, for a
record marked invalid, and for an idle time beyond the timeout (with
eviction on that lookup); otherwise it refreshes lastActivity to the
current time and returns the session.  Consequently a session
validated at time T revalidates successfully at T + timeout - eps and
is absent, and evicted, at T + timeout + eps. -/
theorem C3_validate_session (tmo T eps : Nat) (reg : SessionMap) (sid : String)
    (heps1 : 1 ≤ eps) (heps2 : eps ≤ tmo) :
    (mapGet reg sid = none → validateSession tmo T reg sid = (none, reg)) ∧
    (∀ s, mapGet reg sid = some s → s.isValid = false →
      validateSession tmo T reg sid = (none, reg)) ∧
    (∀ s, mapGet reg sid = some s → s.isValid = true →
      tmo < T - s.lastActivity →
      validateSession tmo T reg sid = (none, mapDel reg sid)) ∧
    (∀ s, mapGet reg sid = some s → s.isValid = true →
      T - s.lastActivity ≤ tmo →
      validateSession tmo T reg sid =
        (some { s with lastActivity := T }, mapSet reg sid { s with lastActivity := T }) ∧
      (validateSession tmo (T + tmo - eps) (validateSession tmo T reg sid).2 sid).1 =
        some { s with lastActivity := T + tmo - eps } ∧
      validateSession tmo (T + tmo + eps) (validateSession tmo T reg sid).2 sid =
        (none, mapDel (validateSession tmo T reg sid).2 sid)) := by
  refine ⟨?_, ?_, ?_, ?_⟩
  · intro h
    simp [validateSession, h]
  · intro s hs hv
    simp [validateSession, hs, hv]
  · intro s hs hv hexp
    simp [validateSession, hs, hv, hexp]
  · intro s hs hv hfresh
    obtain ⟨u, ca, la, iv⟩ := s
    simp only [Session.isValid] at hv
    subst hv
    simp only [Session.lastActivity] at hfresh
    have h1 : validateSession tmo T reg sid =
        (some ⟨u, ca, T, true⟩, mapSet reg sid ⟨u, ca, T, true⟩) := by
      simp [validateSession, hs, Nat.not_lt.mpr hfresh]
    refine ⟨h1, ?_, ?_⟩
    · rw [h1]
      have h2 : mapGet (mapSet reg sid (⟨u, ca, T, true⟩ : Session)) sid =
          some ⟨u, ca, T, true⟩ := mapGet_set_self reg sid _
      have h3 : ¬ (tmo < (T + tmo - eps) - T) := by omega
      simp [validateSession, h2, h3]
    · rw [h1]
      have h2 : mapGet (mapSet reg sid (⟨u, ca, T, true⟩ : Session)) sid =
          some ⟨u, ca, T, true⟩ := mapGet_set_self reg sid _
      have h3 : tmo < (T + tmo + eps) - T := by omega
      simp [validateSession, h2, h3]

/-- C3 witness: a concrete session idle for 10 ticks against a timeout
of 30 validates successfully and has its lastActivity refreshed. -/
theorem C3_witness :
    validateSession 30 100 [("t", ⟨"admin", 50, 90, true⟩)] "t" =
      (some ⟨"admin", 50, 100, true⟩,
       mapSet [("t", ⟨"admin", 50, 90, true⟩)] "t" ⟨"admin", 50, 100, true⟩) :=
  ((C3_validate_session 30 100 1 [("t", ⟨"admin", 50, 90, true⟩)] "t"
      (by decide) (by decide)).2.2.2
    ⟨"admin", 50, 90, true⟩ (by decide) rfl (by decide)).1

/-- C4: for the login throttle, an entry whose stored window timestamp
is more than fifteen minutes old behaves as a zero count (its next
failure records count 1 and blocking never fires); the handler rejects
exactly when the specified isBlocked predicate holds, independently of
the submitted credentials; a successful login deletes the entry; and
five consecutive failures inside the window make the sixth attempt
blocked whatever its credentials are. -/
theorem C4_login_throttle (now t1 t2 t3 t4 t5 t6 : Nat)
    (m m0 : ThrottleMap) (ip : String) (c : Bool)
    (h0 : mapGet m0 ip = none)
    (h12 : t2 - t1 ≤ loginWindowMs) (h23 : t3 - t2 ≤ loginWindowMs)
    (h34 : t4 - t3 ≤ loginWindowMs) (h45 : t5 - t4 ≤ loginWindowMs)
    (h56 : t6 - t5 ≤ loginWindowMs) :
    (∀ a, mapGet m ip = some a → loginWindowMs < now - a.lastAttempt →
      (loginAttemptStep now m ip c).1 ≠ LoginOutcome.blocked ∧
      (loginAttemptStep now m ip false).2 = mapSet m ip ⟨1, now⟩) ∧
    ((loginAttemptStep now m ip c).1 = LoginOutcome.blocked ↔
      isBlockedSpec now m ip = true) ∧
    ((loginAttemptStep now m ip c).1 = LoginOutcome.success →
      mapGet (loginAttemptStep now m ip c).2 ip = none) ∧
    ((loginAttemptStep t6
        ((loginAttemptStep t5
          ((loginAttemptStep t4
            ((loginAttemptStep t3
              ((loginAttemptStep t2
                ((loginAttemptStep t1 m0 ip false).2) ip false).2) ip false).2)
            ip false).2) ip false).2) ip c).1 = LoginOutcome.blocked) := by
  refine ⟨?_, ?_, ?_, ?_⟩
  · intro a ha hexp
    constructor
    · cases c <;>
        simp [loginAttemptStep, ha, hexp, loginMaxAttempts]
    · simp [loginAttemptStep, ha, hexp, loginMaxAttempts]
  · rcases ha : mapGet m ip with _ | a
    · by_cases hw : loginWindowMs < now - (0 : Nat)
      · cases c <;>
          simp [loginAttemptStep, isBlockedSpec, ha, hw, loginMaxAttempts]
      · cases c <;>
          simp [loginAttemptStep, isBlockedSpec, ha, hw, loginMaxAttempts]
    · by_cases hw : loginWindowMs < now - a.lastAttempt
      · cases c <;>
          simp [loginAttemptStep, isBlockedSpec, ha, hw, loginMaxAttempts] <;>
            omega
      · by_cases hc : loginMaxAttempts ≤ a.count
        · simp [loginAttemptStep, isBlockedSpec, ha, hw, hc]
          omega
        · cases c <;>
            simp [loginAttemptStep, isBlockedSpec, ha, hw, hc]
  · intro hs
    rcases ha : mapGet m ip with _ | a <;>
      by_cases hw : loginWindowMs < now - ((mapGet m ip).getD ⟨0, 0⟩).lastAttempt
    all_goals
      cases c <;>
        simp_all [loginAttemptStep, loginMaxAttempts, mapGet_del_self] <;>
          split_ifs at hs ⊢ <;> simp_all [mapGet_del_self]
  · have s1 : (loginAttemptStep t1 m0 ip false) =
        (LoginOutcome.failure, mapSet m0 ip ⟨1, t1⟩) :=
      loginStep_fail_fresh t1 m0 ip h0
    have g1 : mapGet (mapSet m0 ip (⟨1, t1⟩ : AttemptRec)) ip = some ⟨1, t1⟩ :=
      mapGet_set_self m0 ip _
    rw [s1]
    have s2 := loginStep_fail_step t2 t1 1 (mapSet m0 ip ⟨1, t1⟩) ip g1 (by omega) h12
    rw [s2]
    have g2 : mapGet (mapSet (mapSet m0 ip ⟨1, t1⟩) ip (⟨2, t2⟩ : AttemptRec)) ip =
        some ⟨2, t2⟩ := mapGet_set_self _ ip _
    have s3 := loginStep_fail_step t3 t2 2 _ ip g2 (by omega) h23
    rw [s3]
    have g3 : mapGet (mapSet (mapSet (mapSet m0 ip ⟨1, t1⟩) ip ⟨2, t2⟩) ip
        (⟨3, t3⟩ : AttemptRec)) ip = some ⟨3, t3⟩ := mapGet_set_self _ ip _
    have s4 := loginStep_fail_step t4 t3 3 _ ip g3 (by omega) h34
    rw [s4]
    have g4 : mapGet (mapSet (mapSet (mapSet (mapSet m0 ip ⟨1, t1⟩) ip ⟨2, t2⟩) ip
        ⟨3, t3⟩) ip (⟨4, t4⟩ : AttemptRec)) ip = some ⟨4, t4⟩ := mapGet_set_self _ ip _
    have s5 := loginStep_fail_step t5 t4 4 _ ip g4 (by omega) h45
    rw [s5]
    have g5 : mapGet (mapSet (mapSet (mapSet (mapSet (mapSet m0 ip ⟨1, t1⟩) ip
        ⟨2, t2⟩) ip ⟨3, t3⟩) ip ⟨4, t4⟩) ip (⟨5, t5⟩ : AttemptRec)) ip =
        some ⟨5, t5⟩ := mapGet_set_self _ ip _
    simp [loginAttemptStep, g5, Nat.not_lt.mpr h56, loginMaxAttempts]

/-- C4 witness: with an empty throttle map the blocked outcome and the
specified isBlocked predicate agree at a concrete request. -/
theorem C4_witness :
    ((loginAttemptStep 0 [] "a" true).1 = LoginOutcome.blocked ↔
      isBlockedSpec 0 [] "a" = true) :=
  (C4_login_throttle 0 0 0 0 0 0 0 [] [] "a" true rfl (by decide) (by decide)
    (by decide) (by decide) (by decide)).2.1

/-- C5 counterexample: the claim says every field is wrapped in double
quotes unconditionally, yet a null value serializes to a completely
empty field, not to a quoted empty string. -/
theorem C5_counterexample :
    csvField JValue.jnull = "" ∧ csvField JValue.jnull ≠ quoteWrap "" := by
  refine ⟨rfl, ?_⟩
  decide

/-- C5 amended: null and undefined serialize to a fully empty,
unquoted field; every other value is stringified (objects through
their JSON encoding), has each embedded double quote doubled, and is
wrapped in double quotes; the header line is the column names of the
first row joined by commas; and the specification example row produces
exactly the specified CSV text. -/
theorem C5_csv_serialization (s : String) (fs : List (String × JValue))
    (r : Row) (rows : List Row) :
    csvField JValue.jnull = "" ∧
    csvField JValue.jundef = "" ∧
    csvField (JValue.jstr s) = "\"" ++ doubleQuotes s ++ "\"" ∧
    csvField (JValue.jobj fs) =
      "\"" ++ doubleQuotes (jsonStringify (JValue.jobj fs)) ++ "\"" ∧
    (doubleQuotes s).data.count '"' = 2 * s.data.count '"' ∧
    (∃ tail, csvExport (r :: rows) =
      String.intercalate "," (r.map Prod.fst) ++ "\n" ++ tail) ∧
    csvExport [[("id", JValue.jnum 1), ("name", JValue.jstr "O\x27Brien, A")]] =
      "id,name\n\"1\",\"O\x27Brien, A\"\n" := by
    refine ⟨rfl, rfl, rfl, rfl, ?_, ?_, ?_⟩
    · simpa [doubleQuotes] using dqList_count s.data
    · refine ⟨String.join ((r :: rows).map fun row =>
        String.intercalate "," (row.map fun kv => csvField kv.2) ++ "\n"), ?_⟩
      simp [csvExport, String.append_assoc]
    · decide

/-- C6: the page and limit parameters default to 1 and 100 when
absent, any parsed pair yields offset (page - 1) * limit, the
specification example page 3 with limit 10 yields offset 20, and the
reported page total is the ceiling of totalRows / limit. -/
theorem C6_pagination (p l : Option String) (pv lv : Int) (a b : Nat)
    (hb : 0 < b) (hp : pageParsed p = some pv) (hl : limitParsed l = some lv) :
    pageParsed none = some 1 ∧
    limitParsed none = some 100 ∧
    offsetOfQuery p l = some ((pv - 1) * lv) ∧
    offsetOfQuery (some "3") (some "10") = some 20 ∧
    (totalPagesCalc a b : ℤ) = ⌈(a : ℚ) / (b : ℚ)⌉ := by
  refine ⟨rfl, rfl, ?_, by decide, ?_⟩
  · simp [offsetOfQuery, hp, hl]
  · set q : ℕ := (a + b - 1) / b with hqdef
    have hq := Nat.div_add_mod (a + b - 1) b
    have hr : (a + b - 1) % b < b := Nat.mod_lt _ hb
    have h3 : a + (a + b - 1) % b ≤ b * q + (a + b - 1) % b := by
      rw [hqdef, hq]; omega
    have h1 : a ≤ b * q := Nat.le_of_add_le_add_right h3
    have h2 : q * b ≤ a + b - 1 := Nat.div_mul_le_self _ _
    have h2' : q * b < a + b := lt_of_le_of_lt h2 (by omega)
    have hb' : (0 : ℚ) < (b : ℚ) := by exact_mod_cast hb
    have htp : totalPagesCalc a b = q := rfl
    rw [htp, eq_comm, Int.ceil_eq_iff]
    constructor
    · rw [lt_div_iff₀ hb']
      have hc : (q : ℚ) * (b : ℚ) < (a : ℚ) + (b : ℚ) := by exact_mod_cast h2'
      push_cast
      nlinarith [hc]
    · rw [div_le_iff₀ hb']
      have hc : (a : ℚ) ≤ (b : ℚ) * (q : ℚ) := by exact_mod_cast h1
      push_cast
      nlinarith [hc]

/-- C6 witness: page 3 with limit 10 gives offset 20. -/
theorem C6_witness :
    offsetOfQuery (some "3") (some "10") = some 20 :=
  (C6_pagination (some "3") (some "10") 3 10 5 2 (by decide) (by decide)
    (by decide)).2.2.2.1

/-- C7: with a valid table name, a table with no primary key makes
update and delete answer 400 without ever executing the mutating
statement, and a primary-keyed table whose statement matches no row
makes them answer 404, which is not a 500-class database error. -/
theorem C7_update_delete_guards (t : String) (pk : List String) (rows : List Row)
    (hvalid : tableNameRejected t = false) :
    (pk = [] →
      updateRoute t pk rows = (CrudOutcome.noPrimaryKey, false) ∧
      deleteRoute t pk rows = (CrudOutcome.noPrimaryKey, false) ∧
      crudStatus CrudOutcome.noPrimaryKey = 400) ∧
    (pk ≠ [] → rows = [] →
      updateRoute t pk rows = (CrudOutcome.notFound, true) ∧
      deleteRoute t pk rows = (CrudOutcome.notFound, true) ∧
      crudStatus CrudOutcome.notFound = 404 ∧
      crudStatus CrudOutcome.notFound ≠ 500) := by
  constructor
  · intro hpk
    subst hpk
    simp [updateRoute, deleteRoute, hvalid, crudStatus]
  · intro hpk hrows
    subst hrows
    rcases pk with _ | ⟨p, ps⟩
    · exact absurd rfl hpk
    · simp [updateRoute, deleteRoute, hvalid, crudStatus]

/-- C7 witness: updating the users table with no primary key column is
rejected 400 with the statement never executed. -/
theorem C7_witness :
    updateRoute "users" [] [] = (CrudOutcome.noPrimaryKey, false) :=
  ((C7_update_delete_guards "users" [] [] (by decide)).1 rfl).1

/-- C8: for every nonempty query text, the response carries exactly
the warnings of the pre-scan on both the success and the failure path,
the query is always handed to the driver regardless of warnings, and
each destructive pattern produces its advisory string while a plain
select produces none. -/
theorem C8_run_query_warnings (qs : String) (db : DbExec) (hq : qs ≠ "") :
    (runQueryRoute (some qs) db).warnings = computeWarnings qs ∧
    (runQueryRoute (some qs) db).executed = true ∧
    ((runQueryRoute (some qs) db).status = 200 ∨
      (runQueryRoute (some qs) db).status = 500) ∧
    computeWarnings "drop table users" = [warnDestructive] ∧
    computeWarnings "delete from t" = [warnDeleteNoWhere] ∧
    computeWarnings "update t set a=1" = [warnUpdateNoWhere] ∧
    computeWarnings "select * from t" = [] := by
  cases db <;>
    refine ⟨by simp [runQueryRoute, hq], by simp [runQueryRoute, hq],
      by simp [runQueryRoute, hq], by decide, by decide, by decide, by decide⟩

/-- C8 witness: a destructive query that fails still reports its
advisory warning and was executed. -/
theorem C8_witness :
    (runQueryRoute (some "drop table users") DbExec.failure).warnings =
      computeWarnings "drop table users" :=
  (C8_run_query_warnings "drop table users" DbExec.failure (by decide)).1

/-- C9: a table whose unfiltered select returns no rows exports as a
completely empty CSV body, and a header line appears exactly when at
least one row exists. -/
theorem C9_empty_export :
    csvExport [] = "" ∧
    ∀ (r : Row) (rows : List Row), ∃ tail,
      csvExport (r :: rows) =
        String.intercalate "," (r.map Prod.fst) ++ "\n" ++ tail := by
  refine ⟨rfl, fun r rows => ⟨String.join ((r :: rows).map fun row =>
    String.intercalate "," (row.map fun kv => csvField kv.2) ++ "\n"), ?_⟩⟩
  simp [csvExport, String.append_assoc]

/-- C10: every response of the shared database error handler has
status 500 and echoes the raw driver code; the driver message appears
as details exactly in development mode; an unmapped code yields the
generic message and a mapped code its fixed friendly message. -/
theorem C10_error_handler (dev : Bool) (e : DbError) :
    (handleDatabaseError dev e).status = 500 ∧
    (handleDatabaseError dev e).code = e.code ∧
    (handleDatabaseError true e).details = some e.message ∧
    (handleDatabaseError false e).details = none ∧
    (mapGet errorCodeMessages e.code = none →
      (handleDatabaseError dev e).error = "Database operation failed") ∧
    (∀ msg, mapGet errorCodeMessages e.code = some msg →
      (handleDatabaseError dev e).error = msg) := by
  refine ⟨rfl, rfl, rfl, rfl, ?_, ?_⟩
  · intro h
    simp [handleDatabaseError, h]
  · intro msg h
    simp [handleDatabaseError, h]

/-- C10 witness: an unmapped driver code in production mode yields the
generic message with no details and status 500. -/
theorem C10_witness :
    (handleDatabaseError false ⟨"XX000", "boom"⟩).error =
      "Database operation failed" :=
  (C10_error_handler false ⟨"XX000", "boom"⟩).2.2.2.2.1 (by decide)

end PgManager
